import Mathlib

/-!
Verification of the status-reconciliation core of the cluster-dns-operator
repository: the Progressing-condition computation, the version-vector
tracker, and the status equality comparer exercised by
`pkg/operator/controller/status/controller_test.go`.

The controller implementation file itself is not part of the source tree;
its three functions are modelled from the specification, with their call
signatures and concrete input/output behaviour pinned by the in-tree test
tables, which are translated below as `srcTest...` lemmas.
-/

namespace DNSStatus

/-- Tri-state condition status, per the spec's tri-state {True, False, Unknown}. -/
inductive ConditionStatus where
  | true
  | false
  | unknown
deriving DecidableEq, Repr

/-- Modelled from the spec: the fixed component-name key for the operator's own
release identifier (the constant `OperatorVersionName` of the controller,
which is not in the source tree; its concrete string value is immaterial,
only its distinctness from the operand keys matters). -/
def OperatorVersionName : String := "operator"

/-- Modelled from the spec: the component-name key for the core DNS-serving
workload (the constant `CoreDNSVersionName` of the controller). -/
def CoreDNSVersionName : String := "coredns"

/-- Modelled from the spec: the component-name key for the CLI helper image
(the constant `OpenshiftCLIVersionName` of the controller). -/
def OpenshiftCLIVersionName : String := "openshift-cli"

/-- Modelled from the spec: the component-name key for the proxy sidecar image
(the constant `KubeRBACProxyName` of the controller). -/
def KubeRBACProxyName : String := "kube-rbac-proxy"

/-- Modelled from the spec: the reserved unknown-version sentinel
(the constant `UnknownVersionValue` of the controller). -/
def UnknownVersionValue : String := "unknown"

/-- One entry of a version vector: a component-name key and its version string.
Mirrors `configv1.OperandVersion`. -/
structure OperandVersion where
  name : String
  version : String
deriving DecidableEq, Repr

/-- A full condition record, mirroring `configv1.ClusterOperatorStatusCondition`:
type, tri-state status, reason, message and last transition time (modelled as
an integer timestamp). -/
structure ClusterOperatorStatusCondition where
  type : String
  status : ConditionStatus
  reason : String
  message : String
  lastTransitionTime : Int
deriving DecidableEq, Repr

/-- An object reference, mirroring `configv1.ObjectReference`
(`Namespace` is rendered `nspace`, a reserved word in Lean). -/
structure ObjectReference where
  group : String
  resource : String
  nspace : String
  name : String
deriving DecidableEq, Repr

/-- The managed DNS resource's own reported condition flags, per the spec's
`ObservedResourceState` (the `exists` flag is passed separately, as the
`haveDNS` argument of the controller functions). -/
structure DNSStatusFlags where
  available : ConditionStatus
  progressing : ConditionStatus
deriving DecidableEq, Repr

/-- Whether a single version-vector entry mismatches the current desired
version string for its component: the entry is keyed to one of the four known
component names and its version differs from the corresponding desired value. -/
def versionMismatch (opv : OperandVersion)
    (curOperatorVersion curCoreDNSVersion curOpenshiftCLIVersion curKubeRBACProxyVersion : String) :
    Bool :=
  (opv.name == OperatorVersionName && opv.version != curOperatorVersion) ||
  (opv.name == CoreDNSVersionName && opv.version != curCoreDNSVersion) ||
  (opv.name == OpenshiftCLIVersionName && opv.version != curOpenshiftCLIVersion) ||
  (opv.name == KubeRBACProxyName && opv.version != curKubeRBACProxyVersion)

/-- Whether any component of a version vector mismatches the current desired
versions (component-by-component comparison; any single mismatch counts). -/
def anyVersionMismatch (vs : List OperandVersion)
    (curOperatorVersion curCoreDNSVersion curOpenshiftCLIVersion curKubeRBACProxyVersion : String) :
    Bool :=
  vs.any fun opv =>
    versionMismatch opv curOperatorVersion curCoreDNSVersion curOpenshiftCLIVersion
      curKubeRBACProxyVersion

/-- Propositional counterpart of component-wise agreement: every entry of the
vector that is keyed to a known component name carries exactly the current
desired version string of that component. -/
def versionsAgreeWithDesired (vs : List OperandVersion)
    (curOperatorVersion curCoreDNSVersion curOpenshiftCLIVersion curKubeRBACProxyVersion : String) :
    Prop :=
  ∀ opv ∈ vs,
    (opv.name = OperatorVersionName → opv.version = curOperatorVersion) ∧
    (opv.name = CoreDNSVersionName → opv.version = curCoreDNSVersion) ∧
    (opv.name = OpenshiftCLIVersionName → opv.version = curOpenshiftCLIVersion) ∧
    (opv.name = KubeRBACProxyName → opv.version = curKubeRBACProxyVersion)

instance (vs : List OperandVersion) (c1 c2 c3 c4 : String) :
    Decidable (versionsAgreeWithDesired vs c1 c2 c3 c4) := by
  unfold versionsAgreeWithDesired
  infer_instance

/-- Modelled from the spec: human-readable note about components already
upgraded relative to the previously persisted vector. The source's message
text is not specified; only the fact that the old vector feeds nothing but
message text is, so the model routes `oldVersions` into this string alone. -/
def upgradedMessage (oldVersions : List OperandVersion)
    (curOperatorVersion curCoreDNSVersion curOpenshiftCLIVersion curKubeRBACProxyVersion : String) :
    String :=
  String.intercalate ", "
    ((oldVersions.filter fun opv =>
        versionMismatch opv curOperatorVersion curCoreDNSVersion curOpenshiftCLIVersion
          curKubeRBACProxyVersion).map
      fun opv => "Upgraded " ++ opv.name)

/-- Modelled from the spec: `computeOperatorProgressingCondition` of the status
controller (the controller file is not in the source tree; only its test is).
Decision rules, first match wins, per spec section 4.1: missing resource gives
Progressing=True; the resource's own Progressing=True gives True; otherwise a
non-True Available flag gives False; otherwise the version comparison decides.
The vector compared against the current desired versions is the
`reportedVersions` argument, as pinned by the in-tree test rows
("operator upgrade done": old differs from desired yet the expectation is
False once the reported versions equal the desired ones); `oldVersions`
feeds only message text. Tri-state flag values other than True take the
non-True branch, matching the test harness which only produces True/False. -/
def computeOperatorProgressingCondition (haveDNS : Bool) (dns : DNSStatusFlags)
    (oldVersions reportedVersions : List OperandVersion)
    (curOperatorVersion curCoreDNSVersion curOpenshiftCLIVersion curKubeRBACProxyVersion : String) :
    ClusterOperatorStatusCondition :=
  if haveDNS = Bool.false then
    { type := "Progressing", status := .true, reason := "DNSDoesNotExist",
      message := "DNS \x22default\x22 does not exist.", lastTransitionTime := 0 }
  else if dns.progressing = .true then
    { type := "Progressing", status := .true, reason := "DNSProgressing",
      message := "DNS \x22default\x22 is progressing.", lastTransitionTime := 0 }
  else if dns.available ≠ .true then
    { type := "Progressing", status := .false, reason := "DNSNotAvailable",
      message := upgradedMessage oldVersions curOperatorVersion curCoreDNSVersion
        curOpenshiftCLIVersion curKubeRBACProxyVersion,
      lastTransitionTime := 0 }
  else if anyVersionMismatch reportedVersions curOperatorVersion curCoreDNSVersion
      curOpenshiftCLIVersion curKubeRBACProxyVersion then
    { type := "Progressing", status := .true, reason := "Upgrading",
      message := upgradedMessage oldVersions curOperatorVersion curCoreDNSVersion
        curOpenshiftCLIVersion curKubeRBACProxyVersion,
      lastTransitionTime := 0 }
  else
    { type := "Progressing", status := .false, reason := "AsExpected",
      message := upgradedMessage oldVersions curOperatorVersion curCoreDNSVersion
        curOpenshiftCLIVersion curKubeRBACProxyVersion,
      lastTransitionTime := 0 }

/-- Modelled from the spec: `computeOperatorStatusVersions` of the status
controller (the controller file is not in the source tree). Gate is the
Progressing condition just computed: any status other than False freezes
publication at the previously published vector; False publishes the desired
vector whole. -/
def computeOperatorStatusVersions (progressingCondition : ClusterOperatorStatusCondition)
    (oldVersions desiredVersions : List OperandVersion) : List OperandVersion :=
  if progressingCondition.status = .false then desiredVersions else oldVersions

/-- A full status snapshot, mirroring `configv1.ClusterOperatorStatus`:
conditions, version vector and related-object references. Each collection is
an `Option` so that the nil slice and the empty slice of the source are both
representable, as the equality comparer must identify them. -/
structure ClusterOperatorStatus where
  conditions : Option (List ClusterOperatorStatusCondition) := none
  versions : Option (List OperandVersion) := none
  relatedObjects : Option (List ObjectReference) := none
deriving DecidableEq, Repr

/-- The multiset of entries of an optional collection; a nil (absent)
collection counts as empty. -/
def multisetOf {α : Type} (x : Option (List α)) : Multiset α :=
  (x.getD [] : Multiset α)

/-- Modelled from the spec: `operatorStatusesEqual` of the status controller
(the controller file is not in the source tree). Two snapshots are equal iff
conditions, versions and related objects each agree as multisets of full
records — order-independent, nil-equals-empty, sensitive to duplication and
to every field including the last transition time. -/
def operatorStatusesEqual (a b : ClusterOperatorStatus) : Bool :=
  decide (multisetOf a.conditions = multisetOf b.conditions) &&
  decide (multisetOf a.versions = multisetOf b.versions) &&
  decide (multisetOf a.relatedObjects = multisetOf b.relatedObjects)

/-- A status equals another after its versions and related objects are
permuted and its conditions kept intact. -/
def StatusPerm (a b : ClusterOperatorStatus) : Prop :=
  b.conditions = a.conditions ∧
  (b.versions.getD []).Perm (a.versions.getD []) ∧
  (b.relatedObjects.getD []).Perm (a.relatedObjects.getD [])

section SourceTests

/-! Translation of the in-tree test tables. Each lemma below is one row of
`controller_test.go`, evaluated on the modelled functions; together they pin
the model to the source. The test harness builds four-entry vectors whose
operator entry carries the row's operator version and whose three operand
entries all carry the row's operand version. -/

/-- The four-entry version vector the test harness builds from an operator
version string and an operand version string. -/
def testVector (operator operand : String) : List OperandVersion :=
  [⟨OperatorVersionName, operator⟩, ⟨CoreDNSVersionName, operand⟩,
   ⟨OpenshiftCLIVersionName, operand⟩, ⟨KubeRBACProxyName, operand⟩]

/-- The status field the test harness inspects, over the row inputs of
`TestComputeOperatorProgressingCondition`. -/
def progressingRow (dnsMissing dnsAvailable dnsProgressing : Bool)
    (reported old cur : String × String) : ConditionStatus :=
  (computeOperatorProgressingCondition (!dnsMissing)
    ⟨if dnsAvailable then .true else .false, if dnsProgressing then .true else .false⟩
    (testVector old.1 old.2) (testVector reported.1 reported.2)
    cur.1 cur.2 cur.2 cur.2).status

/-- The published vector over the row inputs of
`TestComputeOperatorStatusVersions`. -/
def versionsRow (progressing : ConditionStatus) (old cur : String × String) :
    List OperandVersion :=
  computeOperatorStatusVersions ⟨"Progressing", progressing, "", "", 0⟩
    (testVector old.1 old.2) (testVector cur.1 cur.2)

/-- An object reference carrying only a name, as the test rows build them. -/
def namedRef (n : String) : ObjectReference := ⟨"", "", "", n⟩

/-- A condition carrying a type, status, reason, message and time, as the
test rows build them (the harness's zero-valued status is rendered
`.unknown`). -/
def condRec (t : String) (s : ConditionStatus) (reason msg : String) (time : Int) :
    ClusterOperatorStatusCondition :=
  ⟨t, s, reason, msg, time⟩

theorem srcTestProgressingRows :
    progressingRow Bool.true Bool.false Bool.false ("", "") ("", "") ("", "") = .true ∧
    progressingRow Bool.false Bool.false Bool.false ("", "") ("", "") ("", "") = .false ∧
    progressingRow Bool.false Bool.false Bool.true ("", "") ("", "") ("", "") = .true ∧
    progressingRow Bool.false Bool.true Bool.false ("", "") ("", "") ("", "") = .false ∧
    progressingRow Bool.false Bool.true Bool.true ("", "") ("", "") ("", "") = .true ∧
    progressingRow Bool.false Bool.true Bool.false ("v1", "dns-v1") ("v1", "dns-v1")
      ("v1", "dns-v1") = .false ∧
    progressingRow Bool.false Bool.true Bool.false ("v1", "dns-v1") ("v1", "dns-v1")
      ("v2", "dns-v1") = .true ∧
    progressingRow Bool.false Bool.true Bool.false ("v1", "dns-v1") ("v1", "dns-v1")
      ("v1", "dns-v2") = .true ∧
    progressingRow Bool.false Bool.true Bool.false ("v1", "dns-v1") ("v1", "dns-v1")
      ("v2", "dns-v2") = .true ∧
    progressingRow Bool.false Bool.true Bool.false ("v2", "dns-v1") ("v1", "dns-v1")
      ("v2", "dns-v1") = .false ∧
    progressingRow Bool.false Bool.true Bool.false ("v1", "dns-v2") ("v1", "dns-v1")
      ("v1", "dns-v2") = .false ∧
    progressingRow Bool.false Bool.true Bool.false ("v2", "dns-v2") ("v1", "dns-v1")
      ("v2", "dns-v2") = .false ∧
    progressingRow Bool.false Bool.true Bool.false ("v2", "dns-v1") ("v1", "dns-v1")
      ("v2", "dns-v2") = .true := by
  decide

theorem srcTestVersionsRows :
    versionsRow .false (UnknownVersionValue, UnknownVersionValue) ("v1", "dns-v1")
      = testVector "v1" "dns-v1" ∧
    versionsRow .unknown (UnknownVersionValue, UnknownVersionValue) ("v1", "dns-v1")
      = testVector UnknownVersionValue UnknownVersionValue ∧
    versionsRow .true (UnknownVersionValue, UnknownVersionValue) ("v1", "dns-v1")
      = testVector UnknownVersionValue UnknownVersionValue ∧
    versionsRow .false ("v1", "dns-v1") ("v1", "dns-v1") = testVector "v1" "dns-v1" ∧
    versionsRow .true ("v1", "dns-v1") ("v2", "dns-v1") = testVector "v1" "dns-v1" ∧
    versionsRow .false ("v1", "dns-v1") ("v2", "dns-v1") = testVector "v2" "dns-v1" ∧
    versionsRow .true ("v1", "dns-v1") ("v1", "dns-v2") = testVector "v1" "dns-v1" ∧
    versionsRow .false ("v1", "dns-v1") ("v1", "dns-v2") = testVector "v1" "dns-v2" ∧
    versionsRow .true ("v1", "dns-v1") ("v2", "dns-v2") = testVector "v1" "dns-v1" ∧
    versionsRow .false ("v1", "dns-v1") ("v2", "dns-v2") = testVector "v2" "dns-v2" := by
  decide

theorem srcTestStatusesEqualRows :
    operatorStatusesEqual {} {} = Bool.true ∧
    operatorStatusesEqual { conditions := some [] } {} = Bool.true ∧
    operatorStatusesEqual { conditions := some [] } { conditions := some [] } = Bool.true ∧
    operatorStatusesEqual
      { versions := some [⟨"operator", "v1"⟩, ⟨"router", "v2"⟩] }
      { versions := some [⟨"operator", "v1"⟩, ⟨"router", "v2"⟩] } = Bool.true ∧
    operatorStatusesEqual
      { conditions := some [condRec "Available" .true "" "" 0] }
      { conditions := some [condRec "Available" .true "" "" 1] } = Bool.false ∧
    operatorStatusesEqual
      { versions := some [⟨"operator", "v1"⟩, ⟨"router", "v2"⟩] }
      { versions := some [⟨"router", "v2"⟩, ⟨"operator", "v1"⟩] } = Bool.true ∧
    operatorStatusesEqual
      { relatedObjects := some [namedRef "openshift-ingress", namedRef "default"] }
      { relatedObjects := some [namedRef "default"] } = Bool.false ∧
    operatorStatusesEqual
      { relatedObjects := some [namedRef "default"] }
      { relatedObjects := some [namedRef "openshift-ingress", namedRef "default"] }
      = Bool.false ∧
    operatorStatusesEqual
      { conditions := some [condRec "Available" .false "foo" "" 0] }
      { conditions := some [condRec "Available" .false "bar" "" 0] } = Bool.false ∧
    operatorStatusesEqual
      { conditions := some [condRec "Available" .unknown "" "foo" 0] }
      { conditions := some [condRec "Available" .unknown "" "foo" 0,
                            condRec "Available" .unknown "" "foo" 0] } = Bool.false ∧
    operatorStatusesEqual
      { conditions := some [condRec "Available" .unknown "" "" 0,
                            condRec "Progressing" .unknown "" "" 0,
                            condRec "Available" .unknown "" "" 0] }
      { conditions := some [condRec "Progressing" .unknown "" "" 0,
                            condRec "Available" .unknown "" "" 0,
                            condRec "Progressing" .unknown "" "" 0] } = Bool.false := by
  decide

end SourceTests

/-- The Boolean mismatch scan of the model and the propositional component-wise
agreement predicate are complementary. -/
theorem anyVersionMismatch_eq_false_iff (vs : List OperandVersion) (c1 c2 c3 c4 : String) :
    anyVersionMismatch vs c1 c2 c3 c4 = Bool.false ↔ versionsAgreeWithDesired vs c1 c2 c3 c4 := by
  simp [anyVersionMismatch, versionMismatch, versionsAgreeWithDesired, List.any_eq_false]
  constructor
  · intro h opv hm
    have := h opv hm
    tauto
  · intro h opv hm
    have := h opv hm
    tauto

/-- C1: for every Progressing condition and every old and desired version
vector, the version tracker returns the old vector unchanged in its entirety
when the condition's status is True or Unknown, returns the desired vector in
full when the status is False, and never returns a vector mixing components of
the old and desired vectors. -/
theorem advanceVersions_atomic (cond : ClusterOperatorStatusCondition)
    (oldVersions desiredVersions : List OperandVersion) :
    ((cond.status = .true ∨ cond.status = .unknown) →
      computeOperatorStatusVersions cond oldVersions desiredVersions = oldVersions) ∧
    (cond.status = .false →
      computeOperatorStatusVersions cond oldVersions desiredVersions = desiredVersions) ∧
    (computeOperatorStatusVersions cond oldVersions desiredVersions = oldVersions ∨
      computeOperatorStatusVersions cond oldVersions desiredVersions = desiredVersions) := by
  obtain ⟨ty, st, re, me, ti⟩ := cond
  unfold computeOperatorStatusVersions
  cases st <;> simp

/-- Witness for C1 at the test rows "update operator version, operator is
progressing" and "update operator version, operator is not progressing". -/
theorem advanceVersions_atomic_witness :
    computeOperatorStatusVersions ⟨"Progressing", .true, "", "", 0⟩
      (testVector "v1" "dns-v1") (testVector "v2" "dns-v1") = testVector "v1" "dns-v1" ∧
    computeOperatorStatusVersions ⟨"Progressing", .false, "", "", 0⟩
      (testVector "v1" "dns-v1") (testVector "v2" "dns-v1") = testVector "v2" "dns-v1" :=
  ⟨(advanceVersions_atomic ⟨"Progressing", .true, "", "", 0⟩
      (testVector "v1" "dns-v1") (testVector "v2" "dns-v1")).1 (Or.inl rfl),
   (advanceVersions_atomic ⟨"Progressing", .false, "", "", 0⟩
      (testVector "v1" "dns-v1") (testVector "v2" "dns-v1")).2.1 rfl⟩

/-- C4: whenever the managed resource does not exist, the computed Progressing
condition has status True, regardless of the resource flags and of every
version vector input. -/
theorem computeProgressing_missing_resource (dns : DNSStatusFlags)
    (oldVersions reportedVersions : List OperandVersion) (c1 c2 c3 c4 : String) :
    (computeOperatorProgressingCondition Bool.false dns oldVersions reportedVersions
      c1 c2 c3 c4).status = .true := rfl

/-- C5: whenever the resource exists and its own Progressing flag is True, the
computed Progressing condition has status True, regardless of the Available
flag and of every version vector input. -/
theorem computeProgressing_dominance (available : ConditionStatus)
    (oldVersions reportedVersions : List OperandVersion) (c1 c2 c3 c4 : String) :
    (computeOperatorProgressingCondition Bool.true ⟨available, .true⟩ oldVersions
      reportedVersions c1 c2 c3 c4).status = .true := rfl

/-- C6: whenever the resource exists with its own Progressing flag False and
its own Available flag False, the computed Progressing condition has status
False, regardless of every version vector input. -/
theorem computeProgressing_unavailable_stable
    (oldVersions reportedVersions : List OperandVersion) (c1 c2 c3 c4 : String) :
    (computeOperatorProgressingCondition Bool.true ⟨.false, .false⟩ oldVersions
      reportedVersions c1 c2 c3 c4).status = .false := rfl

/-- C2 counterexample: at the source's "operator upgrade done" row — resource
exists, Available True, Progressing False, previously-published (old) vector
(v1, dns-v1, dns-v1, dns-v1), desired vector (v2, dns-v1, dns-v1, dns-v1) —
the old vector mismatches the desired vector in its operator component, yet
the computed status is False, refuting the claim that any single old-component
mismatch yields Progressing=True. -/
theorem computeProgressing_oldVector_counterexample :
    (computeOperatorProgressingCondition Bool.true ⟨.true, .false⟩
      (testVector "v1" "dns-v1") (testVector "v2" "dns-v1")
      "v2" "dns-v1" "dns-v1" "dns-v1").status = .false ∧
    ¬ versionsAgreeWithDesired (testVector "v1" "dns-v1") "v2" "dns-v1" "dns-v1" "dns-v1" := by
  decide

/-- C2 (amended): when the resource exists with Available True and Progressing
False, the computed status compares, component by component, the resource's
reported version vector — not the previously-published old vector — against
the current desired versions: any single mismatch yields True, full agreement
yields False. -/
theorem computeProgressing_comparesReportedVersions
    (oldVersions reportedVersions : List OperandVersion) (c1 c2 c3 c4 : String) :
    (computeOperatorProgressingCondition Bool.true ⟨.true, .false⟩ oldVersions
        reportedVersions c1 c2 c3 c4).status =
      if versionsAgreeWithDesired reportedVersions c1 c2 c3 c4 then .false else .true := by
  by_cases h : versionsAgreeWithDesired reportedVersions c1 c2 c3 c4
  · have hb := (anyVersionMismatch_eq_false_iff reportedVersions c1 c2 c3 c4).mpr h
    simp [computeOperatorProgressingCondition, hb, h]
  · have hb : anyVersionMismatch reportedVersions c1 c2 c3 c4 = Bool.true := by
      cases hcase : anyVersionMismatch reportedVersions c1 c2 c3 c4 with
      | false =>
        exact absurd ((anyVersionMismatch_eq_false_iff reportedVersions c1 c2 c3 c4).mp hcase) h
      | true => rfl
    simp [computeOperatorProgressingCondition, hb, h]

/-- C3 counterexample: two concrete inputs refute the claimed equivalence
"status False iff Available=True, Progressing=False and oldVersions equals the
desired vector". First, with the resource existing but Available False (and
Progressing False, all vectors equal), the status is False although the
claimed right-hand side demands Available=True. Second, at the "operator
upgrade done" row the status is False although the old vector disagrees with
the desired vector. -/
theorem computeProgressing_convergenceIff_counterexample :
    ((computeOperatorProgressingCondition Bool.true ⟨.false, .false⟩
        (testVector "v1" "dns-v1") (testVector "v1" "dns-v1")
        "v1" "dns-v1" "dns-v1" "dns-v1").status = .false ∧
      (DNSStatusFlags.mk .false .false).available ≠ .true) ∧
    ((computeOperatorProgressingCondition Bool.true ⟨.true, .false⟩
        (testVector "v1" "dns-v1") (testVector "v2" "dns-v1")
        "v2" "dns-v1" "dns-v1" "dns-v1").status = .false ∧
      ¬ versionsAgreeWithDesired (testVector "v1" "dns-v1") "v2" "dns-v1" "dns-v1" "dns-v1") := by
  decide

/-- C3 (amended): the computed Progressing condition has status False exactly
when the resource exists, its own Progressing flag is not True, and either its
own Available flag is not True or every component of the resource's reported
version vector agrees with the current desired versions. -/
theorem computeProgressing_false_characterization (haveDNS : Bool) (dns : DNSStatusFlags)
    (oldVersions reportedVersions : List OperandVersion) (c1 c2 c3 c4 : String) :
    (computeOperatorProgressingCondition haveDNS dns oldVersions reportedVersions
        c1 c2 c3 c4).status = .false ↔
      (haveDNS = Bool.true ∧ dns.progressing ≠ .true ∧
        (dns.available ≠ .true ∨ versionsAgreeWithDesired reportedVersions c1 c2 c3 c4)) := by
  obtain ⟨av, pr⟩ := dns
  cases haveDNS
  · simp [computeOperatorProgressingCondition]
  · by_cases hp : pr = ConditionStatus.true
    · simp [computeOperatorProgressingCondition, hp]
    · by_cases ha : av = ConditionStatus.true
      · by_cases h : versionsAgreeWithDesired reportedVersions c1 c2 c3 c4
        · have hb := (anyVersionMismatch_eq_false_iff reportedVersions c1 c2 c3 c4).mpr h
          simp [computeOperatorProgressingCondition, hp, ha, hb, h]
        · have hb : anyVersionMismatch reportedVersions c1 c2 c3 c4 = Bool.true := by
            cases hcase : anyVersionMismatch reportedVersions c1 c2 c3 c4 with
            | false =>
              exact absurd
                ((anyVersionMismatch_eq_false_iff reportedVersions c1 c2 c3 c4).mp hcase) h
            | true => rfl
          simp [computeOperatorProgressingCondition, hp, ha, hb, h]
      · simp [computeOperatorProgressingCondition, hp, ha]

/-- C10: when the resource exists with Available True and Progressing False,
the status of the computed Progressing condition does not depend on the
`oldVersions` argument — two invocations differing only there agree on the
status — and that status is determined solely by whether the resource's
reported versions all equal the current desired version strings. -/
theorem computeProgressing_oldVersions_noninterference
    (old1 old2 reportedVersions : List OperandVersion) (c1 c2 c3 c4 : String) :
    (computeOperatorProgressingCondition Bool.true ⟨.true, .false⟩ old1 reportedVersions
        c1 c2 c3 c4).status =
      (computeOperatorProgressingCondition Bool.true ⟨.true, .false⟩ old2 reportedVersions
        c1 c2 c3 c4).status ∧
    (computeOperatorProgressingCondition Bool.true ⟨.true, .false⟩ old1 reportedVersions
        c1 c2 c3 c4).status =
      (if versionsAgreeWithDesired reportedVersions c1 c2 c3 c4 then .false else .true) := by
  constructor
  · cases hcase : anyVersionMismatch reportedVersions c1 c2 c3 c4 with
    | false => simp [computeOperatorProgressingCondition, hcase]
    | true => simp [computeOperatorProgressingCondition, hcase]
  · by_cases h : versionsAgreeWithDesired reportedVersions c1 c2 c3 c4
    · have hb := (anyVersionMismatch_eq_false_iff reportedVersions c1 c2 c3 c4).mpr h
      simp [computeOperatorProgressingCondition, hb, h]
    · have hb : anyVersionMismatch reportedVersions c1 c2 c3 c4 = Bool.true := by
        cases hcase : anyVersionMismatch reportedVersions c1 c2 c3 c4 with
        | false =>
          exact absurd ((anyVersionMismatch_eq_false_iff reportedVersions c1 c2 c3 c4).mp hcase) h
        | true => rfl
      simp [computeOperatorProgressingCondition, hb, h]

/-- C7: the comparer matches conditions by count: whenever a status carries a
condition record exactly once, duplicating that record — leaving every other
field of the status untouched — makes the two statuses unequal, even though
every individual field of the duplicated condition matches. -/
theorem statusesEqual_duplicate_sensitive (a : ClusterOperatorStatus)
    (c : ClusterOperatorStatusCondition) (l : List ClusterOperatorStatusCondition)
    (hc : a.conditions = some l) (h1 : l.count c = 1) :
    operatorStatusesEqual a { a with conditions := some (c :: l) } = Bool.false := by
  have hne : multisetOf a.conditions ≠ multisetOf (some (c :: l)) := by
    rw [hc]
    intro h
    have hcount := congrArg (Multiset.count c) h
    simp only [multisetOf, Option.getD_some, Multiset.coe_count] at hcount
    simp [List.count_cons, h1] at hcount
  unfold operatorStatusesEqual
  rw [show ({ a with conditions := some (c :: l) } : ClusterOperatorStatus).conditions
        = some (c :: l) from rfl,
    decide_eq_false hne]
  simp

/-- Witness for C7 at the source's "check duplicate with single condition" row:
an Available condition with message "foo" held once versus held twice. -/
theorem statusesEqual_duplicate_sensitive_witness :
    operatorStatusesEqual { conditions := some [condRec "Available" .unknown "" "foo" 0] }
      { conditions := some [condRec "Available" .unknown "" "foo" 0,
                            condRec "Available" .unknown "" "foo" 0] } = Bool.false :=
  statusesEqual_duplicate_sensitive
    { conditions := some [condRec "Available" .unknown "" "foo" 0] }
    (condRec "Available" .unknown "" "foo" 0)
    [condRec "Available" .unknown "" "foo" 0] rfl (by decide)

/-- C8: permuting the versions or relatedObjects collections of either status
(conditions kept intact) never changes the comparer's verdict. -/
theorem statusesEqual_perm_invariant (a a' b b' : ClusterOperatorStatus)
    (ha : StatusPerm a a') (hb : StatusPerm b b') :
    operatorStatusesEqual a' b' = operatorStatusesEqual a b := by
  obtain ⟨hac, hav, har⟩ := ha
  obtain ⟨hbc, hbv, hbr⟩ := hb
  have h1 : multisetOf a'.versions = multisetOf a.versions := Multiset.coe_eq_coe.mpr hav
  have h2 : multisetOf a'.relatedObjects = multisetOf a.relatedObjects :=
    Multiset.coe_eq_coe.mpr har
  have h3 : multisetOf b'.versions = multisetOf b.versions := Multiset.coe_eq_coe.mpr hbv
  have h4 : multisetOf b'.relatedObjects = multisetOf b.relatedObjects :=
    Multiset.coe_eq_coe.mpr hbr
  unfold operatorStatusesEqual
  rw [hac, hbc, h1, h2, h3, h4]

/-- Witness for C8 at the source's "order of versions should not matter" row:
swapping the two version entries of the left status leaves the verdict (true)
unchanged. -/
theorem statusesEqual_perm_invariant_witness :
    operatorStatusesEqual
        { versions := some [⟨"router", "v2"⟩, ⟨"operator", "v1"⟩] }
        { versions := some [⟨"operator", "v1"⟩, ⟨"router", "v2"⟩] } =
      operatorStatusesEqual
        { versions := some [⟨"operator", "v1"⟩, ⟨"router", "v2"⟩] }
        { versions := some [⟨"operator", "v1"⟩, ⟨"router", "v2"⟩] } ∧
    operatorStatusesEqual
        { versions := some [⟨"operator", "v1"⟩, ⟨"router", "v2"⟩] }
        { versions := some [⟨"operator", "v1"⟩, ⟨"router", "v2"⟩] } = Bool.true :=
  ⟨statusesEqual_perm_invariant
      { versions := some [⟨"operator", "v1"⟩, ⟨"router", "v2"⟩] }
      { versions := some [⟨"router", "v2"⟩, ⟨"operator", "v1"⟩] }
      { versions := some [⟨"operator", "v1"⟩, ⟨"router", "v2"⟩] }
      { versions := some [⟨"operator", "v1"⟩, ⟨"router", "v2"⟩] }
      ⟨rfl, by decide, by decide⟩ ⟨rfl, by decide, by decide⟩,
    by decide⟩

/-- C9: two statuses identical except that one condition's last transition
time differs are judged unequal by the comparer. -/
theorem statusesEqual_time_sensitive (pre post : List ClusterOperatorStatusCondition)
    (c : ClusterOperatorStatusCondition) (t : Int)
    (v : Option (List OperandVersion)) (r : Option (List ObjectReference))
    (ht : t ≠ c.lastTransitionTime) :
    operatorStatusesEqual
      { conditions := some (pre ++ c :: post), versions := v, relatedObjects := r }
      { conditions := some (pre ++ { c with lastTransitionTime := t } :: post),
        versions := v, relatedObjects := r } = Bool.false := by
  have hrec : ({ c with lastTransitionTime := t } : ClusterOperatorStatusCondition) ≠ c := by
    intro h
    exact ht (congrArg ClusterOperatorStatusCondition.lastTransitionTime h)
  have hne : multisetOf (some (pre ++ c :: post))
      ≠ multisetOf (some (pre ++ { c with lastTransitionTime := t } :: post)) := by
    intro h
    have hcount := congrArg (Multiset.count c) h
    simp only [multisetOf, Option.getD_some, Multiset.coe_count] at hcount
    rw [List.count_append, List.count_append] at hcount
    simp [List.count_cons, hrec] at hcount
  unfold operatorStatusesEqual
  rw [show ({ conditions := some (pre ++ c :: post), versions := v, relatedObjects := r } :
        ClusterOperatorStatus).conditions = some (pre ++ c :: post) from rfl,
    decide_eq_false hne]
  simp

/-- Witness for C9 at the source's "condition LastTransitionTime should not be
ignored" row: the same Available=True condition at times 0 and 1. -/
theorem statusesEqual_time_sensitive_witness :
    operatorStatusesEqual { conditions := some [condRec "Available" .true "" "" 0] }
      { conditions := some [condRec "Available" .true "" "" 1] } = Bool.false :=
  statusesEqual_time_sensitive [] [] (condRec "Available" .true "" "" 0) 1 none none
    (by decide)

end DNSStatus
